import Mathlib

/-!
Verification of the background-removal utility
(extension/tools/remove-white-background.py).

The script decodes a GIF, zeroes the alpha channel of every pixel whose
red, green and blue channels all strictly exceed a threshold, and writes
the frames back out, preserving per-frame durations and the loop count
when the image is animated.  The decoding and encoding are performed by
the PIL library, which is external to the repository; the decoded image
and the failure behaviour of the encoder are modelled abstractly,
while the transform and the control flow of the script are embedded
directly from the source.
-/

/-- One RGBA pixel, four 8-bit channels as read by `pixels[x, y]`. -/
structure Pixel where
  r : Nat
  g : Nat
  b : Nat
  a : Nat
deriving DecidableEq, Repr

/-- All four channels of a pixel fit in one byte, as PIL guarantees for
mode RGBA images. -/
def Pixel.valid (p : Pixel) : Prop :=
  p.r ≤ 255 ∧ p.g ≤ 255 ∧ p.b ≤ 255 ∧ p.a ≤ 255

instance (p : Pixel) : Decidable p.valid := by
  unfold Pixel.valid
  infer_instance

/-- The per-pixel body of the nested loop in `remove_white_background`:
`if r > threshold and g > threshold and b > threshold:
   pixels[x, y] = (r, g, b, 0)`. -/
def transformPixel (threshold : Nat) (p : Pixel) : Pixel :=
  if p.r > threshold ∧ p.g > threshold ∧ p.b > threshold then
    Pixel.mk p.r p.g p.b 0
  else
    p

/-- One decoded frame: its size as reported by `frame.size`, and the
pixel grid, stored row by row, so that `pixels[x, y]` is entry `x` of
row `y`. -/
structure Frame where
  width : Nat
  height : Nat
  pixels : List (List Pixel)
deriving DecidableEq, Repr

/-- Pixel access `pixels[x, y]`. -/
def Frame.pixelAt (f : Frame) (x y : Nat) : Option Pixel :=
  (f.pixels[y]?).bind (fun row => row[x]?)

/-- The double loop `for y in range(height): for x in range(width)` of
`remove_white_background`, which rewrites every pixel of the frame
through the threshold test. -/
def transformFrame (threshold : Nat) (f : Frame) : Frame :=
  { f with pixels := f.pixels.map (fun row => row.map (transformPixel threshold)) }

/-- One frame of the decoded source together with the `duration`
value that `img.info.get` exposes while that frame is the current one
(`none` when the key is absent).  Both seek loops of the script walk
exactly this sequence. -/
structure FrameInfo where
  frame : Frame
  duration : Option Nat
deriving DecidableEq, Repr

/-- Modelled from the spec: the image returned by `Image.open`, with
its container `format`, its pixel `mode` (GIF files always decode in
palette mode P, never RGBA), the sequence of frames the decoded file
contains, and the `loop` metadata (`none` when the key is absent). -/
structure Image where
  format : String
  mode : String
  frameData : List FrameInfo
  loop : Option Nat
deriving DecidableEq, Repr

/-- The frames the decoded container holds — the frame count of the
input in the sense of the spec. -/
def Image.frames (img : Image) : List Frame :=
  img.frameData.map (fun fi => fi.frame)

/-- The raw `duration` metadata of the frames of the container, one
entry per frame. -/
def Image.rawDurations (img : Image) : List (Option Nat) :=
  img.frameData.map (fun fi => fi.duration)

/-- Lines 23-24: `if img.mode != 'RGBA': img = img.convert('RGBA')`.
Models the PIL semantics of `convert`: it returns a plain image
object, not the GIF file reader — `tell` on it is 0 and `seek` raises
EOFError for every index other than 0 — so after a conversion both
seek loops of the script expose only frame 0.  GIF files decode in
palette mode P, hence the conversion fires on every GIF input and
silently discards all frames past the first. -/
def Image.convertRGBA (img : Image) : Image :=
  if img.mode ≠ "RGBA" then
    { img with mode := "RGBA", frameData := img.frameData.take 1 }
  else
    img

/-- The arguments the script passes to `save`: either an animated GIF
(frames, per-frame durations, loop count, transparency index, disposal
mode) or a single-frame image (frame, transparency index). -/
inductive GifOutput where
  | animated (frames : List Frame) (durations : List Nat) (loopCount : Nat)
      (transparency : Nat) (disposal : Nat) : GifOutput
  | single (frame : Frame) (transparency : Nat) : GifOutput
deriving DecidableEq, Repr

/-- Number of frames the output carries. -/
def GifOutput.frameCount : GifOutput → Nat
  | .animated fs _ _ _ _ => fs.length
  | .single _ _ => 1

/-- The per-frame durations passed to `save`, when any. -/
def GifOutput.outDurations : GifOutput → Option (List Nat)
  | .animated _ ds _ _ _ => some ds
  | .single _ _ => none

/-- The loop count passed to `save`, when any. -/
def GifOutput.outLoop : GifOutput → Option Nat
  | .animated _ _ l _ _ => some l
  | .single _ _ => none

/-- The transparency index passed to `save`. -/
def GifOutput.transparencyIndex : GifOutput → Nat
  | .animated _ _ _ t _ => t
  | .single _ t => t

/-- The decode-transform-encode pipeline of `remove_white_background`,
from the decoded image to the arguments of `save` (lines 22-80): first
the RGBA conversion of lines 23-24, after which the seek loop collects
the frames the (possibly converted) image still exposes and transforms
each one; if more than one frame was collected, gather the per-frame
durations (`img.info.get` with key duration, default 100) and the loop
count (`img.info.get` with key loop, default 0) from the same image
and save an animated GIF with `transparency=0` and `disposal=2`;
otherwise save `frames[0]` alone with `transparency=0`, which raises
an IndexError when no frame was collected. -/
def processImage (threshold : Nat) (img0 : Image) : Except String GifOutput :=
  let img := img0.convertRGBA
  let frames := img.frames.map (transformFrame threshold)
  if frames.length > 1 then
    let durations := img.rawDurations.map (fun d => d.getD 100)
    Except.ok (GifOutput.animated frames
      (if durations.isEmpty then List.replicate frames.length 100 else durations)
      (img.loop.getD 0) 0 2)
  else
    match frames with
    | [] => Except.error "list index out of range"
    | f :: _ => Except.ok (GifOutput.single f 0)

/-- Modelled from the spec: the outcomes of the two external calls the
script makes — `Image.open` (decode succeeds with an image, or raises
with a message) and `save` (succeeds, or raises with a message). -/
structure RunContext where
  decodeResult : Except String Image
  saveError : Option String

/-- The warning line `print(f"Warning: ...")` emitted when the decoded
format is not GIF. -/
def warningLines (inputPath : String) (img : Image) : List String :=
  if img.format ≠ "GIF" then
    ["Warning: " ++ inputPath ++ " is not a GIF, but " ++ img.format]
  else
    []

/-- The line printed by the `except Exception` handler. -/
def errorLine (inputPath msg : String) : String :=
  "❌ Error processing " ++ inputPath ++ ": " ++ msg

/-- The two lines printed on success. -/
def successLines (inputPath outputPath : String) : List String :=
  ["✅ Successfully removed white background from " ++ inputPath,
   "   Saved to: " ++ outputPath]

/-- `remove_white_background(input_path, output_path, threshold)`:
returns the boolean result and the lines printed to standard output.
Every exception raised inside the `try` block — by the decode, the
pipeline, or the `save` call — is caught by the single handler, which
prints one error line and returns `False`; otherwise the two
confirmation lines are printed and the function returns `True`. -/
def remove_white_background (ctx : RunContext) (inputPath outputPath : String)
    (threshold : Nat) : Bool × List String :=
  match ctx.decodeResult with
  | Except.error e => (false, [errorLine inputPath e])
  | Except.ok img =>
    let warn := warningLines inputPath img
    match processImage threshold img with
    | Except.error e => (false, warn ++ [errorLine inputPath e])
    | Except.ok _ =>
      match ctx.saveError with
      | some e => (false, warn ++ [errorLine inputPath e])
      | none => (true, warn ++ successLines inputPath outputPath)

/-- The first exception, if any, raised inside the `try` block of
`remove_white_background`. -/
def raisedException (ctx : RunContext) (threshold : Nat) : Option String :=
  match ctx.decodeResult with
  | Except.error e => some e
  | Except.ok img =>
    match processImage threshold img with
    | Except.error e => some e
    | Except.ok _ => ctx.saveError

/-- The `__main__` block: if the input file does not exist, print the
not-found line and exit with code 1 before any decode; otherwise run
`remove_white_background` with threshold 240 and exit with code 0 on
`True`, 1 on `False`.  Returns the exit code and the printed lines. -/
def mainProgram (inputExists : Bool) (ctx : RunContext)
    (inputFile outputFile : String) : Nat × List String :=
  if inputExists then
    let res := remove_white_background ctx inputFile outputFile 240
    (if res.1 then 0 else 1, res.2)
  else
    (1, ["❌ Input file not found: " ++ inputFile])

/-! ## Helper lemmas -/

/-- Unfolding lemma for `processImage` with the local lets reduced. -/
theorem processImage_def (t : Nat) (img : Image) :
    processImage t img =
      (if ((img.convertRGBA).frames.map (transformFrame t)).length > 1 then
        Except.ok (GifOutput.animated ((img.convertRGBA).frames.map (transformFrame t))
          (if ((img.convertRGBA).rawDurations.map (fun d => d.getD 100)).isEmpty then
            List.replicate ((img.convertRGBA).frames.map (transformFrame t)).length 100
          else (img.convertRGBA).rawDurations.map (fun d => d.getD 100))
          ((img.convertRGBA).loop.getD 0) 0 2)
      else
        match (img.convertRGBA).frames.map (transformFrame t) with
        | [] => Except.error "list index out of range"
        | f :: _ => Except.ok (GifOutput.single f 0)) := rfl

theorem transformPixel_idem (t : Nat) (p : Pixel) :
    transformPixel t (transformPixel t p) = transformPixel t p := by
  by_cases h : p.r > t ∧ p.g > t ∧ p.b > t
  · simp [transformPixel, h]
  · simp [transformPixel, h]

theorem transformPixel_id_of_high (t : Nat) (p : Pixel)
    (ht : 255 ≤ t) (hp : p.valid) : transformPixel t p = p := by
  unfold transformPixel
  rw [if_neg]
  rintro ⟨h1, -, -⟩
  obtain ⟨hr, -, -, -⟩ := hp
  omega

theorem list_map_fixed {α : Type} (f : α → α) :
    ∀ l : List α, (∀ a ∈ l, f a = a) → l.map f = l := by
  intro l h
  induction l with
  | nil => rfl
  | cons x xs ih =>
    simp only [List.map_cons]
    rw [h x (by simp), ih (fun a ha => h a (by simp [ha]))]

/-! ## Claims about the per-pixel transform -/

/-- C1: for every frame and every pixel (r,g,b,a) with threshold t, if
r > t and g > t and b > t then the output pixel at the same coordinate
is (r,g,b,0) — alpha forced to 0, colour channels unchanged —
otherwise the output pixel is identical to the input pixel, alpha
included; the classification never reads the alpha channel. -/
theorem background_pixel_rule (t : Nat) (f : Frame) (x y : Nat) (p : Pixel)
    (h : f.pixelAt x y = some p) :
    (p.r > t ∧ p.g > t ∧ p.b > t →
      (transformFrame t f).pixelAt x y = some (Pixel.mk p.r p.g p.b 0)) ∧
    (¬(p.r > t ∧ p.g > t ∧ p.b > t) →
      (transformFrame t f).pixelAt x y = some p) := by
  have hlift : (transformFrame t f).pixelAt x y = some (transformPixel t p) := by
    unfold Frame.pixelAt transformFrame at *
    simp only [List.getElem?_map]
    cases hy : f.pixels[y]? with
    | none => rw [hy] at h; simp at h
    | some row =>
      rw [hy] at h
      simp only [Option.map_some, Option.some_bind] at *
      simp [List.getElem?_map, h]
  constructor
  · intro hc
    rw [hlift, transformPixel, if_pos hc]
  · intro hc
    rw [hlift, transformPixel, if_neg hc]

/-- C1 witness: the rule evaluated on a concrete 1×1 frame holding a
near-white pixel at threshold 240. -/
theorem background_pixel_rule_witness :
    (Frame.mk 1 1 [[Pixel.mk 250 250 250 255]]).pixelAt 0 0 =
      some (Pixel.mk 250 250 250 255) ∧
    (transformFrame 240 (Frame.mk 1 1 [[Pixel.mk 250 250 250 255]])).pixelAt 0 0 =
      some (Pixel.mk 250 250 250 0) :=
  ⟨by decide,
   (background_pixel_rule 240 (Frame.mk 1 1 [[Pixel.mk 250 250 250 255]]) 0 0
      (Pixel.mk 250 250 250 255) (by decide)).1 (by decide)⟩

/-- C6: applying the per-pixel background-removal transform twice with
the same threshold yields the same frame as applying it once. -/
theorem transform_idempotent (t : Nat) (f : Frame) :
    transformFrame t (transformFrame t f) = transformFrame t f := by
  unfold transformFrame
  simp [List.map_map, Function.comp, transformPixel_idem]

/-- C9: with a threshold of at least 255 every 8-bit pixel fails the
strict comparison, so the transform leaves the frame unchanged. -/
theorem high_threshold_identity (t : Nat) (f : Frame) (ht : 255 ≤ t)
    (hv : ∀ row ∈ f.pixels, ∀ p ∈ row, p.valid) :
    transformFrame t f = f := by
  unfold transformFrame
  cases f with
  | mk w h px =>
    simp only [Frame.mk.injEq, true_and]
    apply list_map_fixed
    intro row hrow
    apply list_map_fixed
    intro p hp
    exact transformPixel_id_of_high t p ht (hv row hrow p hp)

/-- C9 witness: threshold 255 on a concrete 2×1 frame. -/
theorem high_threshold_identity_witness :
    (255 ≤ 255 ∧
      ∀ row ∈ (Frame.mk 2 1 [[Pixel.mk 255 255 255 255, Pixel.mk 0 0 0 9]]).pixels,
        ∀ p ∈ row, p.valid) ∧
    transformFrame 255 (Frame.mk 2 1 [[Pixel.mk 255 255 255 255, Pixel.mk 0 0 0 9]]) =
      Frame.mk 2 1 [[Pixel.mk 255 255 255 255, Pixel.mk 0 0 0 9]] :=
  ⟨⟨by decide, by decide⟩,
   high_threshold_identity 255 (Frame.mk 2 1 [[Pixel.mk 255 255 255 255, Pixel.mk 0 0 0 9]])
     (by decide) (by decide)⟩

/-- C10: the transform only rewrites pixel values: the output frame has
the same width, height, row count and per-row length as the input. -/
theorem dimensions_preserved (t : Nat) (f : Frame) :
    (transformFrame t f).width = f.width ∧
    (transformFrame t f).height = f.height ∧
    (transformFrame t f).pixels.length = f.pixels.length ∧
    ∀ y : Nat, ((transformFrame t f).pixels[y]?).map List.length =
      (f.pixels[y]?).map List.length := by
  refine ⟨rfl, rfl, by simp [transformFrame], ?_⟩
  intro y
  simp only [transformFrame, List.getElem?_map]
  cases f.pixels[y]? <;> simp

/-! ## Sample data for witnesses -/

def sampleFrame : Frame := Frame.mk 1 1 [[Pixel.mk 250 250 250 255]]

def sampleImage1 : Image :=
  Image.mk "GIF" "P" [FrameInfo.mk sampleFrame (some 80)] (some 0)

/-- A three-frame animated GIF as PIL decodes it: palette mode P,
per-frame durations 80, 120, 80 ms, loop 0. -/
def sampleGif3 : Image :=
  Image.mk "GIF" "P"
    [FrameInfo.mk sampleFrame (some 80), FrameInfo.mk sampleFrame (some 120),
     FrameInfo.mk sampleFrame (some 80)] (some 0)

def samplePng : Image :=
  Image.mk "PNG" "RGBA" [FrameInfo.mk sampleFrame (some 80)] (some 0)

/-! ## Claims about the save pipeline -/

/-- C2: refuted by the program.  A three-frame palette-mode GIF is
truncated by the RGBA conversion of lines 23-24 — the seek loop
collects only frame 0 — so the written output is a single-frame image:
the output frame count is 1 while the input holds 3 frames. -/
theorem frame_count_bug :
    sampleGif3.frames.length = 3 ∧
    processImage 240 sampleGif3 =
      Except.ok (GifOutput.single (transformFrame 240 sampleFrame) 0) ∧
    (GifOutput.single (transformFrame 240 sampleFrame) 0).frameCount = 1 :=
  ⟨by decide, rfl, rfl⟩

/-- C3: refuted by the program for its central case.  A multi-frame
palette-mode GIF never reaches the animated branch after the RGBA
conversion, so no per-frame durations and no loop count are written:
the output of a three-frame GIF is the bare single-frame save. -/
theorem animated_metadata_bug :
    1 < sampleGif3.frames.length ∧
    processImage 240 sampleGif3 =
      Except.ok (GifOutput.single (transformFrame 240 sampleFrame) 0) ∧
    (GifOutput.single (transformFrame 240 sampleFrame) 0).outDurations = none ∧
    (GifOutput.single (transformFrame 240 sampleFrame) 0).outLoop = none :=
  ⟨by decide, rfl, rfl, rfl⟩

/-- C7: when the seek loop collects exactly one frame the script saves
a single-frame image with transparency index 0 and passes no duration
or loop metadata. -/
theorem single_frame_output (t : Nat) (img : Image)
    (h : (img.convertRGBA).frames.length = 1) :
    ∃ f, processImage t img = Except.ok (GifOutput.single f 0) ∧
      (GifOutput.single f 0).transparencyIndex = 0 ∧
      (GifOutput.single f 0).outDurations = none ∧
      (GifOutput.single f 0).outLoop = none := by
  rcases hfs : (img.convertRGBA).frames with _ | ⟨f0, rest⟩
  · rw [hfs] at h
    simp at h
  · rcases rest with _ | ⟨f1, rest2⟩
    · refine ⟨transformFrame t f0, ?_, rfl, rfl, rfl⟩
      rw [processImage_def, hfs]
      simp
    · rw [hfs] at h
      simp at h

/-- C7 witness: the single-frame branch on a concrete one-frame GIF. -/
theorem single_frame_output_witness :
    (sampleImage1.convertRGBA).frames.length = 1 ∧
    ∃ f, processImage 240 sampleImage1 = Except.ok (GifOutput.single f 0) ∧
      (GifOutput.single f 0).transparencyIndex = 0 ∧
      (GifOutput.single f 0).outDurations = none ∧
      (GifOutput.single f 0).outLoop = none :=
  ⟨by decide, single_frame_output 240 sampleImage1 (by decide)⟩

/-! ## Claims about error handling and the main block -/

/-- The warning lines already printed when the handler or the success
prints run (none when the decode itself raised). -/
def printedWarnings (ctx : RunContext) (ip : String) : List String :=
  match ctx.decodeResult with
  | Except.error _ => []
  | Except.ok img => warningLines ip img

/-- C4: when any step of the decode-transform-encode sequence raises,
`remove_white_background` returns False and its output is the warnings
already printed followed by exactly one error line carrying the
exception message; when nothing raises it returns True and ends its
output with the two confirmation lines naming both paths. -/
theorem exception_handling (ctx : RunContext) (ip op : String) (t : Nat) :
    (∀ e, raisedException ctx t = some e →
      remove_white_background ctx ip op t =
        (false, printedWarnings ctx ip ++ [errorLine ip e])) ∧
    (raisedException ctx t = none →
      remove_white_background ctx ip op t =
        (true, printedWarnings ctx ip ++ successLines ip op)) := by
  rcases ctx with ⟨dec, sv⟩
  rcases dec with e | img
  · refine ⟨?_, ?_⟩
    · rintro e2 he
      simp only [raisedException, Option.some.injEq] at he
      subst he
      simp [remove_white_background, printedWarnings]
    · intro he
      simp [raisedException] at he
  · rcases hpi : processImage t img with pe | out
    · refine ⟨?_, ?_⟩
      · rintro e2 he
        simp only [raisedException, hpi, Option.some.injEq] at he
        subst he
        simp [remove_white_background, printedWarnings, hpi]
      · intro he
        simp [raisedException, hpi] at he
    · rcases sv with _ | se
      · refine ⟨?_, ?_⟩
        · rintro e2 he
          simp [raisedException, hpi] at he
        · intro he
          simp [remove_white_background, printedWarnings, hpi]
      · refine ⟨?_, ?_⟩
        · rintro e2 he
          simp only [raisedException, hpi, Option.some.injEq] at he
          subst he
          simp [remove_white_background, printedWarnings, hpi]
        · intro he
          simp [raisedException, hpi] at he

/-- C4 witness: a failing decode with message boom. -/
theorem exception_handling_witness :
    raisedException (RunContext.mk (Except.error "boom") none) 240 = some "boom" ∧
    remove_white_background (RunContext.mk (Except.error "boom") none)
        "in.gif" "out.gif" 240 =
      (false, printedWarnings (RunContext.mk (Except.error "boom") none) "in.gif" ++
        [errorLine "in.gif" "boom"]) :=
  ⟨rfl,
   (exception_handling (RunContext.mk (Except.error "boom") none)
      "in.gif" "out.gif" 240).1 "boom" rfl⟩

/-- C5: the main block exits with code 1 and prints the not-found line
when the input file is missing, without consulting the decode at all,
and otherwise exits with code 0 exactly when `remove_white_background`
returned True and code 1 when it returned False. -/
theorem exit_codes (ctx ctx2 : RunContext) (inFile outFile : String) :
    mainProgram false ctx inFile outFile =
      (1, ["❌ Input file not found: " ++ inFile]) ∧
    mainProgram false ctx inFile outFile = mainProgram false ctx2 inFile outFile ∧
    ((remove_white_background ctx inFile outFile 240).1 = true →
      (mainProgram true ctx inFile outFile).1 = 0) ∧
    ((remove_white_background ctx inFile outFile 240).1 = false →
      (mainProgram true ctx inFile outFile).1 = 1) := by
  refine ⟨rfl, rfl, ?_, ?_⟩ <;>
  · intro h
    simp [mainProgram, h]

/-- C5 witness: a successful run exits 0; the missing-input branch
prints the not-found line with exit code 1. -/
theorem exit_codes_witness :
    mainProgram false (RunContext.mk (Except.ok sampleImage1) none) "in.gif" "out.gif" =
      (1, ["❌ Input file not found: " ++ "in.gif"]) ∧
    (mainProgram true (RunContext.mk (Except.ok sampleImage1) none) "in.gif" "out.gif").1 = 0 := by
  have h := exit_codes (RunContext.mk (Except.ok sampleImage1) none)
    (RunContext.mk (Except.error "boom") none) "in.gif" "out.gif"
  exact ⟨h.1, h.2.2.1 (by rfl)⟩

/-- C8: a non-GIF container format only adds the warning line: the
boolean outcome equals the outcome on the same image with format GIF,
and the printed lines are the warning line followed by exactly the
lines of the GIF run. -/
theorem format_warning (img : Image) (sv : Option String) (ip op : String) (t : Nat)
    (h : img.format ≠ "GIF") :
    (remove_white_background (RunContext.mk (Except.ok img) sv) ip op t).1 =
      (remove_white_background
        (RunContext.mk (Except.ok (Image.mk "GIF" img.mode img.frameData img.loop)) sv)
        ip op t).1 ∧
    (remove_white_background (RunContext.mk (Except.ok img) sv) ip op t).2 =
      ("Warning: " ++ ip ++ " is not a GIF, but " ++ img.format) ::
        (remove_white_background
          (RunContext.mk (Except.ok (Image.mk "GIF" img.mode img.frameData img.loop)) sv)
          ip op t).2 := by
  rcases img with ⟨fmt, md, fd, lp⟩
  have h2 : fmt ≠ "GIF" := h
  have hpi : processImage t (Image.mk fmt md fd lp) =
      processImage t (Image.mk "GIF" md fd lp) := by
    unfold processImage Image.convertRGBA
    by_cases hmd : md ≠ "RGBA" <;> simp [hmd, Image.frames, Image.rawDurations]
  rcases hp2 : processImage t (Image.mk "GIF" md fd lp) with pe | out <;>
    rcases sv with _ | se <;>
    simp [remove_white_background, warningLines, hpi, hp2, h2]

/-- C8 witness: a PNG-formatted one-frame image at threshold 240. -/
theorem format_warning_witness :
    samplePng.format ≠ "GIF" ∧
    (remove_white_background (RunContext.mk (Except.ok samplePng) none)
        "in.gif" "out.gif" 240).2 =
      ("Warning: " ++ "in.gif" ++ " is not a GIF, but " ++ samplePng.format) ::
        (remove_white_background
          (RunContext.mk
            (Except.ok (Image.mk "GIF" samplePng.mode samplePng.frameData samplePng.loop)) none)
          "in.gif" "out.gif" 240).2 :=
  ⟨by decide, (format_warning samplePng none "in.gif" "out.gif" 240 (by decide)).2⟩
